import Mathlib

/-!
Verification of the email-validation pipeline in `src/app.py`
(`validate_email_full`), a three-stage check: syntax (pydantic
`validate_email`), DNS MX resolution (`dns.resolver.resolve`), and an SMTP
mailbox probe (`smtplib.SMTP` / `rcpt`).

The three external collaborators are modelled as oracles collected in an
`Env` record; the pipeline itself is translated statement-by-statement from
the source.  An exception that `validate_email_full` does not catch (the
`except` clause at app.py line 51 names exactly `dns.resolver.NoAnswer`,
`dns.resolver.NXDOMAIN` and `dns.resolver.NoNameservers`, so e.g.
`dns.resolver.LifetimeTimeout`, raised by dnspython on a resolver timeout,
escapes) is modelled as `Except.error ()`.
-/

namespace EmailValidator

/-- Outcome of pydantic's `validate_email` (app.py line 35): a
`(local_part, domain)` pair on success, a `ValueError` on any grammar
violation. -/
inductive SyntaxOutcome where
  | ok (local_part domain : String)
  | error
  deriving Repr, DecidableEq

/-- Outcome of `dns.resolver.resolve(domain, 'MX')` (app.py line 43).
`answers` is a successful return carrying the listed exchange hostnames in
response order (possibly empty, matching the `if mx_records:` truthiness
test at line 44).  `noAnswer`, `nxdomain` and `noNameservers` are the three
exception classes caught at line 51.  `otherException` is any other
exception raised by the resolver — e.g. `dns.resolver.LifetimeTimeout` on a
resolver timeout — which line 51 does not catch. -/
inductive DnsOutcome where
  | answers (records : List String)
  | noAnswer
  | nxdomain
  | noNameservers
  | otherException
  deriving Repr, DecidableEq

/-- Outcome of the whole SMTP block (app.py lines 60-68): `reply code`
means the session (connect, helo, mail, rcpt, clean teardown) completed and
`server.rcpt(email)` returned `code`; `failure` is any exception anywhere
in the block — timeout, connection refused, protocol error — caught by the
broad `except Exception` at line 84. -/
inductive SmtpOutcome where
  | reply (code : Nat)
  | failure
  deriving Repr, DecidableEq

/-- The external collaborators of one request: the syntax checker applied
to the raw input, the MX resolver applied to a domain, and the SMTP probe
applied to a mail-exchange host and the full address. -/
structure Env where
  validate_email : String → SyntaxOutcome
  resolve_mx : String → DnsOutcome
  smtp_rcpt : String → String → SmtpOutcome

/-- The four values the Python dict entry `checks["mailbox_exists"]` can
hold: `True`, `False`, the string `"undetermined"`, or its initial value,
the string `"unchecked"` (app.py line 26). -/
inductive MailboxStatus where
  | unchecked
  | confirmedTrue
  | confirmedFalse
  | undetermined
  deriving Repr, DecidableEq

/-- The `checks` sub-dictionary of the result (app.py lines 23-27). -/
structure Checks where
  syntax_valid : Bool
  domain_has_mx : Bool
  mailbox_exists : MailboxStatus
  deriving Repr, DecidableEq

/-- The `validation_results` dictionary (app.py lines 20-29). -/
structure ValidationResult where
  email : String
  is_valid : Bool
  checks : Checks
  reason : String
  deriving Repr, DecidableEq

/-- `validate_email_full` (app.py lines 15-91), translated clause by
clause.  `Except.ok` is a normal return of the results dict;
`Except.error ()` is an exception escaping the function (only possible
when the resolver raises outside the tuple caught at line 51). -/
def validate_email_full (env : Env) (email : String) :
    Except Unit ValidationResult :=
  let r0 : ValidationResult :=
    { email := email
      is_valid := false
      checks :=
        { syntax_valid := false
          domain_has_mx := false
          mailbox_exists := MailboxStatus.unchecked }
      reason := "" }
  match env.validate_email email with
  | SyntaxOutcome.error =>
      Except.ok { r0 with reason := "Invalid email syntax." }
  | SyntaxOutcome.ok _ domain =>
    let r1 := { r0 with checks := { r0.checks with syntax_valid := true } }
    match env.resolve_mx domain with
    | DnsOutcome.answers [] =>
        Except.ok { r1 with reason := "Domain does not have MX records." }
    | DnsOutcome.answers (mx0 :: _) =>
      let r2 :=
        { r1 with checks := { r1.checks with domain_has_mx := true } }
      match env.smtp_rcpt mx0 email with
      | SmtpOutcome.reply code =>
          if code = 250 then
            Except.ok
              { r2 with
                checks :=
                  { r2.checks with
                    mailbox_exists := MailboxStatus.confirmedTrue }
                is_valid := true
                reason := "Email appears to be valid and deliverable." }
          else if code = 550 then
            Except.ok
              { r2 with
                checks :=
                  { r2.checks with
                    mailbox_exists := MailboxStatus.confirmedFalse }
                reason := "Mailbox does not exist (SMTP check)." }
          else
            Except.ok
              { r2 with
                checks :=
                  { r2.checks with
                    mailbox_exists := MailboxStatus.undetermined }
                reason :=
                  "SMTP check was inconclusive (Code: " ++ toString code
                    ++ "). This could be a catch-all address."
                is_valid := true }
      | SmtpOutcome.failure =>
          Except.ok
            { r2 with
              checks :=
                { r2.checks with
                  mailbox_exists := MailboxStatus.undetermined }
              reason :=
                "SMTP check failed (could be a firewall or temporary server issue)."
              is_valid := true }
    | DnsOutcome.noAnswer | DnsOutcome.nxdomain | DnsOutcome.noNameservers =>
        Except.ok
          { r1 with
            reason := "Could not resolve domain or find MX records." }
    | DnsOutcome.otherException => Except.error ()

/-- The endpoint handles a list of independent requests by calling
`validate_email_full` afresh on each; `app.py` has no module-level mutable
state, so a sequence of calls is the per-element map of the single-call
function. -/
def runBatch (env : Env) (emails : List String) :
    List (Except Unit ValidationResult) :=
  emails.map (validate_email_full env)

/-- Path lemma: pydantic rejects the input (app.py lines 37-39). -/
theorem run_syntax_error (env : Env) (email : String)
    (h : env.validate_email email = SyntaxOutcome.error) :
    validate_email_full env email =
      Except.ok
        { email := email
          is_valid := false
          checks :=
            { syntax_valid := false
              domain_has_mx := false
              mailbox_exists := MailboxStatus.unchecked }
          reason := "Invalid email syntax." } := by
  simp [validate_email_full, h]

/-- Path lemma: the resolver returns an empty answer set (app.py
lines 48-50). -/
theorem run_no_mx (env : Env) (email lp d : String)
    (h1 : env.validate_email email = SyntaxOutcome.ok lp d)
    (h2 : env.resolve_mx d = DnsOutcome.answers []) :
    validate_email_full env email =
      Except.ok
        { email := email
          is_valid := false
          checks :=
            { syntax_valid := true
              domain_has_mx := false
              mailbox_exists := MailboxStatus.unchecked }
          reason := "Domain does not have MX records." } := by
  simp [validate_email_full, h1, h2]

/-- Path lemma: the resolver raises one of the three exception classes
caught at app.py line 51. -/
theorem run_dns_caught (env : Env) (email lp d : String)
    (h1 : env.validate_email email = SyntaxOutcome.ok lp d)
    (h2 : env.resolve_mx d = DnsOutcome.noAnswer ∨
          env.resolve_mx d = DnsOutcome.nxdomain ∨
          env.resolve_mx d = DnsOutcome.noNameservers) :
    validate_email_full env email =
      Except.ok
        { email := email
          is_valid := false
          checks :=
            { syntax_valid := true
              domain_has_mx := false
              mailbox_exists := MailboxStatus.unchecked }
          reason := "Could not resolve domain or find MX records." } := by
  rcases h2 with h2 | h2 | h2 <;> simp [validate_email_full, h1, h2]

/-- Path lemma: the resolver raises outside the caught tuple (e.g. a
resolver timeout); the exception escapes `validate_email_full`. -/
theorem run_dns_uncaught (env : Env) (email lp d : String)
    (h1 : env.validate_email email = SyntaxOutcome.ok lp d)
    (h2 : env.resolve_mx d = DnsOutcome.otherException) :
    validate_email_full env email = Except.error () := by
  simp [validate_email_full, h1, h2]

/-- Path lemma: the probe completes with reply code 250 (app.py
lines 70-73). -/
theorem run_reply_250 (env : Env) (email lp d mx0 : String)
    (rest : List String)
    (h1 : env.validate_email email = SyntaxOutcome.ok lp d)
    (h2 : env.resolve_mx d = DnsOutcome.answers (mx0 :: rest))
    (h3 : env.smtp_rcpt mx0 email = SmtpOutcome.reply 250) :
    validate_email_full env email =
      Except.ok
        { email := email
          is_valid := true
          checks :=
            { syntax_valid := true
              domain_has_mx := true
              mailbox_exists := MailboxStatus.confirmedTrue }
          reason := "Email appears to be valid and deliverable." } := by
  simp [validate_email_full, h1, h2, h3]

/-- Path lemma: the probe completes with reply code 550 (app.py
lines 74-76). -/
theorem run_reply_550 (env : Env) (email lp d mx0 : String)
    (rest : List String)
    (h1 : env.validate_email email = SyntaxOutcome.ok lp d)
    (h2 : env.resolve_mx d = DnsOutcome.answers (mx0 :: rest))
    (h3 : env.smtp_rcpt mx0 email = SmtpOutcome.reply 550) :
    validate_email_full env email =
      Except.ok
        { email := email
          is_valid := false
          checks :=
            { syntax_valid := true
              domain_has_mx := true
              mailbox_exists := MailboxStatus.confirmedFalse }
          reason := "Mailbox does not exist (SMTP check)." } := by
  simp [validate_email_full, h1, h2, h3]

/-- Path lemma: the probe completes with a definitive code other than 250
or 550 (app.py lines 77-82). -/
theorem run_reply_other (env : Env) (email lp d mx0 : String)
    (rest : List String) (code : Nat)
    (h1 : env.validate_email email = SyntaxOutcome.ok lp d)
    (h2 : env.resolve_mx d = DnsOutcome.answers (mx0 :: rest))
    (h3 : env.smtp_rcpt mx0 email = SmtpOutcome.reply code)
    (h4 : code ≠ 250) (h5 : code ≠ 550) :
    validate_email_full env email =
      Except.ok
        { email := email
          is_valid := true
          checks :=
            { syntax_valid := true
              domain_has_mx := true
              mailbox_exists := MailboxStatus.undetermined }
          reason :=
            "SMTP check was inconclusive (Code: " ++ toString code
              ++ "). This could be a catch-all address." } := by
  simp [validate_email_full, h1, h2, h3, h4, h5]

/-- Path lemma: the SMTP block raises and the broad `except Exception`
at app.py line 84 handles it (lines 84-89). -/
theorem run_smtp_failure (env : Env) (email lp d mx0 : String)
    (rest : List String)
    (h1 : env.validate_email email = SyntaxOutcome.ok lp d)
    (h2 : env.resolve_mx d = DnsOutcome.answers (mx0 :: rest))
    (h3 : env.smtp_rcpt mx0 email = SmtpOutcome.failure) :
    validate_email_full env email =
      Except.ok
        { email := email
          is_valid := true
          checks :=
            { syntax_valid := true
              domain_has_mx := true
              mailbox_exists := MailboxStatus.undetermined }
          reason :=
            "SMTP check failed (could be a firewall or temporary server issue)." } := by
  simp [validate_email_full, h1, h2, h3]

/-- Concrete collaborator behaviour: every input is rejected by the syntax
checker (e.g. the input `"not-an-email"` under pydantic). -/
def envSyntaxBad : Env :=
  { validate_email := fun _ => SyntaxOutcome.error
    resolve_mx := fun _ => DnsOutcome.answers ["mx.example."]
    smtp_rcpt := fun _ _ => SmtpOutcome.reply 250 }

/-- Concrete collaborator behaviour: syntax passes, the resolver returns an
empty MX answer set. -/
def envNoMx : Env :=
  { validate_email := fun _ => SyntaxOutcome.ok "user" "nomx.example"
    resolve_mx := fun _ => DnsOutcome.answers []
    smtp_rcpt := fun _ _ => SmtpOutcome.failure }

/-- Concrete collaborator behaviour: syntax passes, the resolver raises
`NXDOMAIN` (the domain does not exist). -/
def envNx : Env :=
  { validate_email := fun _ => SyntaxOutcome.ok "user" "gone.example"
    resolve_mx := fun _ => DnsOutcome.nxdomain
    smtp_rcpt := fun _ _ => SmtpOutcome.failure }

/-- Concrete collaborator behaviour: syntax passes, the resolver raises an
exception outside the tuple caught at app.py line 51 (e.g.
`dns.resolver.LifetimeTimeout` on a resolver timeout). -/
def envTimeout : Env :=
  { validate_email := fun _ => SyntaxOutcome.ok "user" "slow.example"
    resolve_mx := fun _ => DnsOutcome.otherException
    smtp_rcpt := fun _ _ => SmtpOutcome.failure }

/-- Concrete collaborator behaviour: syntax and MX pass, and the SMTP probe
answers 250, 550, 450 or raises, depending on the mailbox asked about. -/
def envProbe : Env :=
  { validate_email := fun e =>
      if e = "bad-input" then SyntaxOutcome.error
      else SyntaxOutcome.ok "user" "good.example"
    resolve_mx := fun _ =>
      DnsOutcome.answers ["mx1.good.example.", "mx2.good.example."]
    smtp_rcpt := fun _ e =>
      if e = "alice@good.example" then SmtpOutcome.reply 250
      else if e = "bob@good.example" then SmtpOutcome.reply 550
      else if e = "carol@good.example" then SmtpOutcome.reply 450
      else SmtpOutcome.failure }

/-- C1, counterexample: when the MX query ends in the non-existent-domain
condition (`NXDOMAIN`), the reason is `"Could not resolve domain or find MX
records."`, not `"Domain does not have MX records."` as the claim states. -/
theorem nxdomain_reason_counterexample :
    validate_email_full envNx "user@gone.example" =
      Except.ok
        { email := "user@gone.example"
          is_valid := false
          checks :=
            { syntax_valid := true
              domain_has_mx := false
              mailbox_exists := MailboxStatus.unchecked }
          reason := "Could not resolve domain or find MX records." } ∧
    "Could not resolve domain or find MX records." ≠
      "Domain does not have MX records." :=
  ⟨rfl, by decide⟩

/-- C1, amended: a syntactically valid address whose MX query returns an
empty answer set yields `domain_has_mx = false`, `is_valid = false` and
reason `"Domain does not have MX records."`; the non-existent-domain
condition yields the same flags but reason `"Could not resolve domain or
find MX records."`.  In both cases the SMTP probe oracle is never
consulted: the result is the same under every probe behaviour `s`. -/
theorem definitive_negative_no_probe (env : Env) (email lp d : String)
    (hsyn : env.validate_email email = SyntaxOutcome.ok lp d) :
    (env.resolve_mx d = DnsOutcome.answers [] →
      ∀ s : String → String → SmtpOutcome,
        validate_email_full { env with smtp_rcpt := s } email =
          Except.ok
            { email := email
              is_valid := false
              checks :=
                { syntax_valid := true
                  domain_has_mx := false
                  mailbox_exists := MailboxStatus.unchecked }
              reason := "Domain does not have MX records." }) ∧
    (env.resolve_mx d = DnsOutcome.nxdomain →
      ∀ s : String → String → SmtpOutcome,
        validate_email_full { env with smtp_rcpt := s } email =
          Except.ok
            { email := email
              is_valid := false
              checks :=
                { syntax_valid := true
                  domain_has_mx := false
                  mailbox_exists := MailboxStatus.unchecked }
              reason := "Could not resolve domain or find MX records." }) :=
  ⟨fun hmx s => run_no_mx { env with smtp_rcpt := s } email lp d hsyn hmx,
   fun hmx s =>
     run_dns_caught { env with smtp_rcpt := s } email lp d hsyn
       (Or.inr (Or.inl hmx))⟩

/-- C1, witness: both branches of `definitive_negative_no_probe` realised
on concrete collaborators, with a probe oracle that would have answered
250 had it been consulted. -/
theorem definitive_negative_no_probe_witness :
    validate_email_full
        { envNoMx with smtp_rcpt := fun _ _ => SmtpOutcome.reply 250 }
        "user@nomx.example" =
      Except.ok
        { email := "user@nomx.example"
          is_valid := false
          checks :=
            { syntax_valid := true
              domain_has_mx := false
              mailbox_exists := MailboxStatus.unchecked }
          reason := "Domain does not have MX records." } ∧
    validate_email_full
        { envNx with smtp_rcpt := fun _ _ => SmtpOutcome.reply 250 }
        "user@gone.example" =
      Except.ok
        { email := "user@gone.example"
          is_valid := false
          checks :=
            { syntax_valid := true
              domain_has_mx := false
              mailbox_exists := MailboxStatus.unchecked }
          reason := "Could not resolve domain or find MX records." } :=
  ⟨(definitive_negative_no_probe envNoMx "user@nomx.example" "user"
      "nomx.example" rfl).1 rfl (fun _ _ => SmtpOutcome.reply 250),
   (definitive_negative_no_probe envNx "user@gone.example" "user"
      "gone.example" rfl).2 rfl (fun _ _ => SmtpOutcome.reply 250)⟩

/-- C2, counterexample: a resolver failure outside the three exception
classes caught at app.py line 51 — e.g. a resolver timeout — escapes
`validate_email_full` as an exception instead of being surfaced inside a
structured result record. -/
theorem resolver_exception_escapes_counterexample :
    validate_email_full envTimeout "user@slow.example" = Except.error () :=
  rfl

/-- C2, amended: as long as the resolver only ever signals success, an
empty answer, or one of the three caught exception classes, every input
string produces a structured result record and no exception reaches the
transport layer; a resolver exception outside those classes (e.g. a
timeout) escapes. -/
theorem no_exception_when_resolver_caught (env : Env) (email : String)
    (hres : ∀ d, env.resolve_mx d ≠ DnsOutcome.otherException) :
    validate_email_full env email ≠ Except.error () := by
  cases hsyn : env.validate_email email with
  | error => rw [run_syntax_error env email hsyn]; simp
  | ok lp d =>
    cases hmx : env.resolve_mx d with
    | answers recs =>
      cases recs with
      | nil => rw [run_no_mx env email lp d hsyn hmx]; simp
      | cons mx0 rest =>
        cases hs : env.smtp_rcpt mx0 email with
        | failure =>
            rw [run_smtp_failure env email lp d mx0 rest hsyn hmx hs]; simp
        | reply code =>
          by_cases h250 : code = 250
          · subst h250
            rw [run_reply_250 env email lp d mx0 rest hsyn hmx hs]; simp
          · by_cases h550 : code = 550
            · subst h550
              rw [run_reply_550 env email lp d mx0 rest hsyn hmx hs]; simp
            · rw [run_reply_other env email lp d mx0 rest code hsyn hmx hs
                h250 h550]
              simp
    | noAnswer =>
        rw [run_dns_caught env email lp d hsyn (Or.inl hmx)]; simp
    | nxdomain =>
        rw [run_dns_caught env email lp d hsyn (Or.inr (Or.inl hmx))]; simp
    | noNameservers =>
        rw [run_dns_caught env email lp d hsyn (Or.inr (Or.inr hmx))]; simp
    | otherException => exact absurd hmx (hres d)

/-- C2, witness: a collaborator set whose resolver never raises an
uncaught class; the pipeline returns a structured record on an arbitrary
input. -/
theorem no_exception_when_resolver_caught_witness :
    validate_email_full envProbe "alice@good.example" ≠ Except.error () :=
  no_exception_when_resolver_caught envProbe "alice@good.example"
    (fun d h => by simp [envProbe] at h)

/-- C3, counterexample: on a transient resolver failure signalled outside
the three caught exception classes (a resolver timeout), the pipeline does
not terminate with `is_valid = false` and a reason string — it terminates
with an uncaught exception and returns no result record at all. -/
theorem resolver_timeout_unreported_counterexample :
    validate_email_full envTimeout "bob@slow.example" = Except.error () :=
  rfl

/-- C3, amended: for syntactically valid addresses whose resolution fails
with one of the exception classes the code catches (`NoAnswer`,
`NXDOMAIN`, `NoNameservers`), the pipeline terminates at the resolver
stage — never consulting the probe oracle — with `is_valid = false` and
reason `"Could not resolve domain or find MX records."`, which differs
from the `"Domain does not have MX records."` wording of the definitive
no-MX case; a resolver failure outside those classes (e.g. a timeout)
instead escapes as an exception. -/
theorem caught_resolver_failure_distinct_reason (env : Env)
    (email lp d : String)
    (hsyn : env.validate_email email = SyntaxOutcome.ok lp d)
    (hmx : env.resolve_mx d = DnsOutcome.noAnswer ∨
           env.resolve_mx d = DnsOutcome.nxdomain ∨
           env.resolve_mx d = DnsOutcome.noNameservers) :
    (∀ s : String → String → SmtpOutcome,
      validate_email_full { env with smtp_rcpt := s } email =
        Except.ok
          { email := email
            is_valid := false
            checks :=
              { syntax_valid := true
                domain_has_mx := false
                mailbox_exists := MailboxStatus.unchecked }
            reason := "Could not resolve domain or find MX records." }) ∧
    "Could not resolve domain or find MX records." ≠
      "Domain does not have MX records." :=
  ⟨fun s => run_dns_caught { env with smtp_rcpt := s } email lp d hsyn hmx,
   by decide⟩

/-- C3, witness: the `NoNameservers` condition on a concrete collaborator
set, with a probe oracle that would have answered 250 had it been
consulted. -/
theorem caught_resolver_failure_distinct_reason_witness :
    validate_email_full
        { envNx with
          resolve_mx := fun _ => DnsOutcome.noNameservers
          smtp_rcpt := fun _ _ => SmtpOutcome.reply 250 }
        "user@gone.example" =
      Except.ok
        { email := "user@gone.example"
          is_valid := false
          checks :=
            { syntax_valid := true
              domain_has_mx := false
              mailbox_exists := MailboxStatus.unchecked }
          reason := "Could not resolve domain or find MX records." } :=
  (caught_resolver_failure_distinct_reason
      { envNx with resolve_mx := fun _ => DnsOutcome.noNameservers }
      "user@gone.example" "user" "gone.example" rfl
      (Or.inr (Or.inr rfl))).1 (fun _ _ => SmtpOutcome.reply 250)

/-- C4: a string the syntax checker rejects yields `syntax_valid = false`,
`is_valid = false`, reason exactly `"Invalid email syntax."`, and the
result is the same under every resolver behaviour `dns` and every probe
behaviour `s` — no later stage, hence no network call, can influence it. -/
theorem syntax_invalid_short_circuits (env : Env) (email : String)
    (h : env.validate_email email = SyntaxOutcome.error) :
    ∀ (dns : String → DnsOutcome) (s : String → String → SmtpOutcome),
      validate_email_full { env with resolve_mx := dns, smtp_rcpt := s }
          email =
        Except.ok
          { email := email
            is_valid := false
            checks :=
              { syntax_valid := false
                domain_has_mx := false
                mailbox_exists := MailboxStatus.unchecked }
            reason := "Invalid email syntax." } :=
  fun dns s =>
    run_syntax_error { env with resolve_mx := dns, smtp_rcpt := s } email h

/-- C4, witness: the rejected input `"not-an-email"`, with network oracles
that would have reported MX records and a 250 reply had they been
consulted. -/
theorem syntax_invalid_short_circuits_witness :
    validate_email_full
        { envSyntaxBad with
          resolve_mx := fun _ => DnsOutcome.answers ["mx.example."]
          smtp_rcpt := fun _ _ => SmtpOutcome.reply 250 }
        "not-an-email" =
      Except.ok
        { email := "not-an-email"
          is_valid := false
          checks :=
            { syntax_valid := false
              domain_has_mx := false
              mailbox_exists := MailboxStatus.unchecked }
          reason := "Invalid email syntax." } :=
  syntax_invalid_short_circuits envSyntaxBad "not-an-email" rfl
    (fun _ => DnsOutcome.answers ["mx.example."])
    (fun _ _ => SmtpOutcome.reply 250)

/-- C5: once syntax and MX have passed, a probe that completes with reply
code 250 yields `mailbox_exists = True` and `is_valid = true`, and a probe
that completes with reply code 550 yields `mailbox_exists = False` with
`is_valid` remaining `false`. -/
theorem probe_definitive_codes (env : Env) (email lp d mx0 : String)
    (rest : List String)
    (hsyn : env.validate_email email = SyntaxOutcome.ok lp d)
    (hmx : env.resolve_mx d = DnsOutcome.answers (mx0 :: rest)) :
    (env.smtp_rcpt mx0 email = SmtpOutcome.reply 250 →
      validate_email_full env email =
        Except.ok
          { email := email
            is_valid := true
            checks :=
              { syntax_valid := true
                domain_has_mx := true
                mailbox_exists := MailboxStatus.confirmedTrue }
            reason := "Email appears to be valid and deliverable." }) ∧
    (env.smtp_rcpt mx0 email = SmtpOutcome.reply 550 →
      validate_email_full env email =
        Except.ok
          { email := email
            is_valid := false
            checks :=
              { syntax_valid := true
                domain_has_mx := true
                mailbox_exists := MailboxStatus.confirmedFalse }
            reason := "Mailbox does not exist (SMTP check)." }) :=
  ⟨fun hs => run_reply_250 env email lp d mx0 rest hsyn hmx hs,
   fun hs => run_reply_550 env email lp d mx0 rest hsyn hmx hs⟩

/-- C5, witness: both reply codes realised on a concrete collaborator set,
250 for one mailbox and 550 for another. -/
theorem probe_definitive_codes_witness :
    validate_email_full envProbe "alice@good.example" =
      Except.ok
        { email := "alice@good.example"
          is_valid := true
          checks :=
            { syntax_valid := true
              domain_has_mx := true
              mailbox_exists := MailboxStatus.confirmedTrue }
          reason := "Email appears to be valid and deliverable." } ∧
    validate_email_full envProbe "bob@good.example" =
      Except.ok
        { email := "bob@good.example"
          is_valid := false
          checks :=
            { syntax_valid := true
              domain_has_mx := true
              mailbox_exists := MailboxStatus.confirmedFalse }
          reason := "Mailbox does not exist (SMTP check)." } :=
  ⟨(probe_definitive_codes envProbe "alice@good.example" "user"
      "good.example" "mx1.good.example." ["mx2.good.example."] rfl rfl).1
      rfl,
   (probe_definitive_codes envProbe "bob@good.example" "user"
      "good.example" "mx1.good.example." ["mx2.good.example."] rfl rfl).2
      rfl⟩

/-- C6: once MX has been confirmed present, a probe that completes with a
definitive code other than 250 or 550, or that fails at the transport
level, yields `mailbox_exists = "undetermined"` and `is_valid = true`. -/
theorem probe_inconclusive_undetermined (env : Env)
    (email lp d mx0 : String) (rest : List String)
    (hsyn : env.validate_email email = SyntaxOutcome.ok lp d)
    (hmx : env.resolve_mx d = DnsOutcome.answers (mx0 :: rest)) :
    (∀ code : Nat, code ≠ 250 → code ≠ 550 →
      env.smtp_rcpt mx0 email = SmtpOutcome.reply code →
      validate_email_full env email =
        Except.ok
          { email := email
            is_valid := true
            checks :=
              { syntax_valid := true
                domain_has_mx := true
                mailbox_exists := MailboxStatus.undetermined }
            reason :=
              "SMTP check was inconclusive (Code: " ++ toString code
                ++ "). This could be a catch-all address." }) ∧
    (env.smtp_rcpt mx0 email = SmtpOutcome.failure →
      validate_email_full env email =
        Except.ok
          { email := email
            is_valid := true
            checks :=
              { syntax_valid := true
                domain_has_mx := true
                mailbox_exists := MailboxStatus.undetermined }
            reason :=
              "SMTP check failed (could be a firewall or temporary server issue)." }) :=
  ⟨fun code h250 h550 hs =>
     run_reply_other env email lp d mx0 rest code hsyn hmx hs h250 h550,
   fun hs => run_smtp_failure env email lp d mx0 rest hsyn hmx hs⟩

/-- C6, witness: an inconclusive 450 reply for one mailbox and a transport
failure for another, on the same concrete collaborator set. -/
theorem probe_inconclusive_undetermined_witness :
    validate_email_full envProbe "carol@good.example" =
      Except.ok
        { email := "carol@good.example"
          is_valid := true
          checks :=
            { syntax_valid := true
              domain_has_mx := true
              mailbox_exists := MailboxStatus.undetermined }
          reason :=
            "SMTP check was inconclusive (Code: 450). This could be a catch-all address." } ∧
    validate_email_full envProbe "dave@good.example" =
      Except.ok
        { email := "dave@good.example"
          is_valid := true
          checks :=
            { syntax_valid := true
              domain_has_mx := true
              mailbox_exists := MailboxStatus.undetermined }
          reason :=
            "SMTP check failed (could be a firewall or temporary server issue)." } :=
  ⟨(probe_inconclusive_undetermined envProbe "carol@good.example" "user"
      "good.example" "mx1.good.example." ["mx2.good.example."] rfl rfl).1
      450 (by decide) (by decide) rfl,
   (probe_inconclusive_undetermined envProbe "dave@good.example" "user"
      "good.example" "mx1.good.example." ["mx2.good.example."] rfl rfl).2
      rfl⟩

/-- C7: a returned record carries `mailbox_exists = True` or `= False`
only when the probe stage actually ran — syntax passed and the resolver
returned a non-empty answer list — and completed with the definitive reply
code 250 (for `True`) or 550 (for `False`); every other path leaves the
field at `"unchecked"` or sets it to `"undetermined"`. -/
theorem mailbox_definitive_only_from_probe (env : Env) (email : String)
    (r : ValidationResult)
    (h : validate_email_full env email = Except.ok r)
    (hd : r.checks.mailbox_exists = MailboxStatus.confirmedTrue ∨
          r.checks.mailbox_exists = MailboxStatus.confirmedFalse) :
    ∃ (lp d mx0 : String) (rest : List String),
      env.validate_email email = SyntaxOutcome.ok lp d ∧
      env.resolve_mx d = DnsOutcome.answers (mx0 :: rest) ∧
      ((r.checks.mailbox_exists = MailboxStatus.confirmedTrue ∧
        env.smtp_rcpt mx0 email = SmtpOutcome.reply 250) ∨
       (r.checks.mailbox_exists = MailboxStatus.confirmedFalse ∧
        env.smtp_rcpt mx0 email = SmtpOutcome.reply 550)) := by
  cases hsyn : env.validate_email email with
  | error =>
    rw [run_syntax_error env email hsyn] at h
    injection h with h
    subst h
    simp at hd
  | ok lp d =>
    cases hmx : env.resolve_mx d with
    | answers recs =>
      cases recs with
      | nil =>
        rw [run_no_mx env email lp d hsyn hmx] at h
        injection h with h
        subst h
        simp at hd
      | cons mx0 rest =>
        cases hs : env.smtp_rcpt mx0 email with
        | failure =>
          rw [run_smtp_failure env email lp d mx0 rest hsyn hmx hs] at h
          injection h with h
          subst h
          simp at hd
        | reply code =>
          by_cases h250 : code = 250
          · subst h250
            rw [run_reply_250 env email lp d mx0 rest hsyn hmx hs] at h
            injection h with h
            subst h
            exact ⟨lp, d, mx0, rest, rfl, hmx, Or.inl ⟨rfl, hs⟩⟩
          · by_cases h550 : code = 550
            · subst h550
              rw [run_reply_550 env email lp d mx0 rest hsyn hmx hs] at h
              injection h with h
              subst h
              exact ⟨lp, d, mx0, rest, rfl, hmx, Or.inr ⟨rfl, hs⟩⟩
            · rw [run_reply_other env email lp d mx0 rest code hsyn hmx hs
                h250 h550] at h
              injection h with h
              subst h
              simp at hd
    | noAnswer =>
      rw [run_dns_caught env email lp d hsyn (Or.inl hmx)] at h
      injection h with h
      subst h
      simp at hd
    | nxdomain =>
      rw [run_dns_caught env email lp d hsyn (Or.inr (Or.inl hmx))] at h
      injection h with h
      subst h
      simp at hd
    | noNameservers =>
      rw [run_dns_caught env email lp d hsyn (Or.inr (Or.inr hmx))] at h
      injection h with h
      subst h
      simp at hd
    | otherException =>
      rw [run_dns_uncaught env email lp d hsyn hmx] at h
      cases h

/-- C7, witness: the 250 branch of `mailbox_definitive_only_from_probe`
realised on a concrete collaborator set. -/
theorem mailbox_definitive_only_from_probe_witness :
    ∃ (lp d mx0 : String) (rest : List String),
      envProbe.validate_email "alice@good.example" =
        SyntaxOutcome.ok lp d ∧
      envProbe.resolve_mx d = DnsOutcome.answers (mx0 :: rest) ∧
      ((MailboxStatus.confirmedTrue = MailboxStatus.confirmedTrue ∧
        envProbe.smtp_rcpt mx0 "alice@good.example" =
          SmtpOutcome.reply 250) ∨
       (MailboxStatus.confirmedTrue = MailboxStatus.confirmedFalse ∧
        envProbe.smtp_rcpt mx0 "alice@good.example" =
          SmtpOutcome.reply 550)) :=
  mailbox_definitive_only_from_probe envProbe "alice@good.example"
    { email := "alice@good.example"
      is_valid := true
      checks :=
        { syntax_valid := true
          domain_has_mx := true
          mailbox_exists := MailboxStatus.confirmedTrue }
      reason := "Email appears to be valid and deliverable." }
    rfl (Or.inl rfl)

/-- C8: the pipeline is deterministic and stateless across calls — within
any two request sequences served against the same collaborators, positions
holding the same input string receive the same response record, so no
state carried from one call influences another. -/
theorem pipeline_stateless_idempotent (env : Env)
    (es1 es2 : List String) (i j : Nat) (e : String)
    (h1 : es1[i]? = some e) (h2 : es2[j]? = some e) :
    (runBatch env es1)[i]? = (runBatch env es2)[j]? := by
  simp [runBatch, List.getElem?_map, h1, h2]

/-- C8, witness: the same address at different positions of two different
request sequences receives the same response. -/
theorem pipeline_stateless_idempotent_witness :
    (runBatch envProbe
        ["alice@good.example", "bob@good.example"])[0]? =
      (runBatch envProbe
        ["bob@good.example", "alice@good.example", "carol@good.example"])[1]? :=
  pipeline_stateless_idempotent envProbe
    ["alice@good.example", "bob@good.example"]
    ["bob@good.example", "alice@good.example", "carol@good.example"]
    0 1 "alice@good.example" rfl rfl

/-- C9: in every returned record, `is_valid = true` implies both
`syntax_valid = true` and `domain_has_mx = true`. -/
theorem is_valid_requires_syntax_and_mx (env : Env) (email : String)
    (r : ValidationResult)
    (h : validate_email_full env email = Except.ok r)
    (hv : r.is_valid = true) :
    r.checks.syntax_valid = true ∧ r.checks.domain_has_mx = true := by
  cases hsyn : env.validate_email email with
  | error =>
    rw [run_syntax_error env email hsyn] at h
    injection h with h
    subst h
    simp at hv
  | ok lp d =>
    cases hmx : env.resolve_mx d with
    | answers recs =>
      cases recs with
      | nil =>
        rw [run_no_mx env email lp d hsyn hmx] at h
        injection h with h
        subst h
        simp at hv
      | cons mx0 rest =>
        cases hs : env.smtp_rcpt mx0 email with
        | failure =>
          rw [run_smtp_failure env email lp d mx0 rest hsyn hmx hs] at h
          injection h with h
          subst h
          exact ⟨rfl, rfl⟩
        | reply code =>
          by_cases h250 : code = 250
          · subst h250
            rw [run_reply_250 env email lp d mx0 rest hsyn hmx hs] at h
            injection h with h
            subst h
            exact ⟨rfl, rfl⟩
          · by_cases h550 : code = 550
            · subst h550
              rw [run_reply_550 env email lp d mx0 rest hsyn hmx hs] at h
              injection h with h
              subst h
              simp at hv
            · rw [run_reply_other env email lp d mx0 rest code hsyn hmx hs
                h250 h550] at h
              injection h with h
              subst h
              exact ⟨rfl, rfl⟩
    | noAnswer =>
      rw [run_dns_caught env email lp d hsyn (Or.inl hmx)] at h
      injection h with h
      subst h
      simp at hv
    | nxdomain =>
      rw [run_dns_caught env email lp d hsyn (Or.inr (Or.inl hmx))] at h
      injection h with h
      subst h
      simp at hv
    | noNameservers =>
      rw [run_dns_caught env email lp d hsyn (Or.inr (Or.inr hmx))] at h
      injection h with h
      subst h
      simp at hv
    | otherException =>
      rw [run_dns_uncaught env email lp d hsyn hmx] at h
      cases h

/-- C9, witness: the only `is_valid = true` record of the concrete
collaborator set indeed has both earlier checks true. -/
theorem is_valid_requires_syntax_and_mx_witness :
    (true : Bool) = true ∧ (true : Bool) = true :=
  is_valid_requires_syntax_and_mx envProbe "alice@good.example"
    { email := "alice@good.example"
      is_valid := true
      checks :=
        { syntax_valid := true
          domain_has_mx := true
          mailbox_exists := MailboxStatus.confirmedTrue }
      reason := "Email appears to be valid and deliverable." }
    rfl rfl

/-- C10: whenever the pipeline returns after stopping before the probe
stage — syntax rejection, empty MX answer set, or a caught resolver
failure — the record carries `mailbox_exists` still at its initial value
`"unchecked"` together with `is_valid = false`. -/
theorem pre_probe_mailbox_unchecked (env : Env) (email : String)
    (r : ValidationResult)
    (hpre : env.validate_email email = SyntaxOutcome.error ∨
            ∃ lp d, env.validate_email email = SyntaxOutcome.ok lp d ∧
              (env.resolve_mx d = DnsOutcome.answers [] ∨
               env.resolve_mx d = DnsOutcome.noAnswer ∨
               env.resolve_mx d = DnsOutcome.nxdomain ∨
               env.resolve_mx d = DnsOutcome.noNameservers))
    (h : validate_email_full env email = Except.ok r) :
    r.checks.mailbox_exists = MailboxStatus.unchecked ∧
      r.is_valid = false := by
  rcases hpre with hsyn | ⟨lp, d, hsyn, hmx⟩
  · rw [run_syntax_error env email hsyn] at h
    injection h with h
    subst h
    exact ⟨rfl, rfl⟩
  · rcases hmx with hmx | hmx
    · rw [run_no_mx env email lp d hsyn hmx] at h
      injection h with h
      subst h
      exact ⟨rfl, rfl⟩
    · rw [run_dns_caught env email lp d hsyn hmx] at h
      injection h with h
      subst h
      exact ⟨rfl, rfl⟩

/-- C10, witness: the empty-MX stop on a concrete collaborator set. -/
theorem pre_probe_mailbox_unchecked_witness :
    MailboxStatus.unchecked = MailboxStatus.unchecked ∧
      (false : Bool) = false :=
  pre_probe_mailbox_unchecked envNoMx "user@nomx.example"
    { email := "user@nomx.example"
      is_valid := false
      checks :=
        { syntax_valid := true
          domain_has_mx := false
          mailbox_exists := MailboxStatus.unchecked }
      reason := "Domain does not have MX records." }
    (Or.inr ⟨"user", "nomx.example", rfl, Or.inl rfl⟩) rfl

end EmailValidator
